import Mathlib

/-!  Verification of the gql.rs syntax crate against its specification.

The parser (src/syntax/src/ast.rs) and error type (src/syntax/src/error.rs)
are transcribed from the source.  The lexer, the token type and the node
model live in modules of this crate that are not present under src/
(lexer.rs, token.rs, nodes.rs); those are modelled from the spec, each with
a doc comment saying so.  The parser is embedded as functions from a token
list to `Except ParseError (result, remaining tokens)`; loops of the source
become fuel-indexed recursion, where every iteration of a source loop
consumes at least one token, so a fuel exceeding the token count never
reaches the exhaustion branch.
-/

namespace Gql

/-- Modelled from the spec: the i64 payload of an Int token (spec section 3);
no claim reaches the machine width, so mathematical integers are used. -/
abbrev I64 := Int

/-- Modelled from the spec: the f64 payload of a Float token (spec section 3),
kept as its decoded decimal scientific value, mantissa times ten to the
exponent10; floating-point rounding is not modelled and no claim depends on it. -/
structure F64 where
  mantissa : Int
  exponent10 : Int
  deriving DecidableEq, Repr

/-- Modelled from the spec: token.rs is not under src/ (lib.rs only declares
the module).  Tagged union of spec section 3.  Location fields are dropped:
category equality ignores them and src/ast.rs never reads them. -/
inductive Token where
  | Start
  | End
  | Name (value : String)
  | Int (value : I64)
  | Float (value : F64)
  | Str (value : String)
  | BlockStr (value : String)
  | OpenBrace
  | CloseBrace
  | OpenParen
  | CloseParen
  | OpenSquare
  | CloseSquare
  | Colon
  | Equals
  | Bang
  | Dollar
  | At
  | Pipe
  | Ellipsis
  deriving DecidableEq, Repr

/-- Modelled from the spec: the category index behind is_same_type
(spec section 3: tokens are compared by category, independent of payload). -/
def Token.tag : Token → Nat
  | .Start => 0
  | .End => 1
  | .Name _ => 2
  | .Int _ => 3
  | .Float _ => 4
  | .Str _ => 5
  | .BlockStr _ => 6
  | .OpenBrace => 7
  | .CloseBrace => 8
  | .OpenParen => 9
  | .CloseParen => 10
  | .OpenSquare => 11
  | .CloseSquare => 12
  | .Colon => 13
  | .Equals => 14
  | .Bang => 15
  | .Dollar => 16
  | .At => 17
  | .Pipe => 18
  | .Ellipsis => 19

/-- Modelled from the spec: Token::is_same_type compares tokens by lexical
category only, ignoring payload and location (spec section 3). -/
def Token.is_same_type (a b : Token) : Bool := a.tag == b.tag

/-- Modelled from the spec: the Display rendering of a token used inside
UnexpectedToken messages (token.rs is not under src/).  Only the category is
rendered; no claim observes the exact text. -/
def Token.toString : Token → String
  | .Start => "Token::Start"
  | .End => "Token::End"
  | .Name _ => "Token::Name"
  | .Int _ => "Token::Int"
  | .Float _ => "Token::Float"
  | .Str _ => "Token::Str"
  | .BlockStr _ => "Token::BlockStr"
  | .OpenBrace => "Token::OpenBrace"
  | .CloseBrace => "Token::CloseBrace"
  | .OpenParen => "Token::OpenParen"
  | .CloseParen => "Token::CloseParen"
  | .OpenSquare => "Token::OpenSquare"
  | .CloseSquare => "Token::CloseSquare"
  | .Colon => "Token::Colon"
  | .Equals => "Token::Equals"
  | .Bang => "Token::Bang"
  | .Dollar => "Token::Dollar"
  | .At => "Token::At"
  | .Pipe => "Token::Pipe"
  | .Ellipsis => "Token::Ellipsis"

/-- Modelled from the spec: the lexical failure taxonomy of spec section 7
(lexer.rs is not under src/). -/
inductive LexErrorKind where
  | UnexpectedCharacter
  | UnterminatedString
  | UnterminatedBlockString
  | InvalidEscape
  | MalformedNumber
  deriving DecidableEq, Repr

/-- Error type transcribed from src/syntax/src/error.rs. -/
inductive ParseError where
  | BadValue
  | DocumentEmpty
  | ArgumentEmpty
  | EOF
  | LexError (e : LexErrorKind)
  | UnexpectedToken (expected : String) (received : String)
  deriving DecidableEq, Repr

/-- Modelled from the spec: nodes.rs is not under src/.  A name carried by a
node (spec section 3 data model; shape also visible in the tests of lib.rs). -/
structure NameNode where
  value : String
  deriving DecidableEq, Repr

/-- Modelled from the spec: a decoded string literal with a flag telling a
block string from a single-line string (spec section 3). -/
structure StringValueNode where
  value : String
  block : Bool
  deriving DecidableEq, Repr

/-- Modelled from the spec: a named type reference (spec section 3). -/
structure NamedTypeNode where
  name : NameNode
  deriving DecidableEq, Repr

/-- Modelled from the spec: the recursive type expression; NonNull wraps
whatever type expression immediately precedes the bang (spec section 3).
The ListTypeNode wrapper of the source, a struct holding one list_type,
is inlined into the List constructor. -/
inductive TypeNode where
  | Named (name : NamedTypeNode)
  | List (list_type : TypeNode)
  | NonNull (t : TypeNode)
  deriving DecidableEq, Repr

/-- Modelled from the spec: integer literal node (spec section 3). -/
structure IntValueNode where
  value : I64
  deriving DecidableEq, Repr

/-- Modelled from the spec: float literal node (spec section 3). -/
structure FloatValueNode where
  value : F64
  deriving DecidableEq, Repr

/-- Modelled from the spec: boolean literal node (spec section 3). -/
structure BooleanValueNode where
  value : Bool
  deriving DecidableEq, Repr

/-- Modelled from the spec: enum-value literal node (spec section 3). -/
structure EnumValueNode where
  value : String
  deriving DecidableEq, Repr

/-- Modelled from the spec: variable reference node (spec section 3). -/
structure VariableNode where
  name : NameNode
  deriving DecidableEq, Repr

/-- Modelled from the spec: the ValueNode variants of spec section 3;
list and object literals are not modelled there either (spec section 1). -/
inductive ValueNode where
  | Int (node : IntValueNode)
  | Float (node : FloatValueNode)
  | Str (node : StringValueNode)
  | Bool (node : BooleanValueNode)
  | Null
  | Enum (node : EnumValueNode)
  | Variable (node : VariableNode)
  deriving DecidableEq, Repr

/-- Modelled from the spec: one argument of a directive (spec section 3). -/
structure Argument where
  name : NameNode
  value : ValueNode
  deriving DecidableEq, Repr

/-- Modelled from the spec: a directive with optional arguments (spec section 3). -/
structure DirectiveNode where
  name : NameNode
  arguments : Option (List Argument)
  deriving DecidableEq, Repr

/-- Modelled from the spec: one argument definition of a field, with optional
description and optional default value (spec sections 3 and 4.2). -/
structure InputValueDefinitionNode where
  description : Option StringValueNode
  name : NameNode
  input_type : TypeNode
  default_value : Option ValueNode
  directives : Option (List DirectiveNode)
  deriving DecidableEq, Repr

/-- Modelled from the spec: the argument list of a field (src/ast.rs names the
alias Arguments for the accumulated vector). -/
abbrev Arguments := List InputValueDefinitionNode

/-- Modelled from the spec: a field definition of an object type (spec section 3). -/
structure FieldDefinitionNode where
  description : Option StringValueNode
  name : NameNode
  arguments : Option Arguments
  field_type : TypeNode
  deriving DecidableEq, Repr

/-- Modelled from the spec: an object type definition (spec section 3). -/
structure ObjectTypeDefinitionNode where
  description : Option StringValueNode
  name : NameNode
  interfaces : Option (List NamedTypeNode)
  directives : Option (List DirectiveNode)
  fields : List FieldDefinitionNode
  deriving DecidableEq, Repr

/-- Modelled from the spec: one enum value (spec section 3). -/
structure EnumValueDefinitionNode where
  description : Option StringValueNode
  name : NameNode
  directives : Option (List DirectiveNode)
  deriving DecidableEq, Repr

/-- Modelled from the spec: an enum type definition (spec section 3). -/
structure EnumTypeDefinitionNode where
  description : Option StringValueNode
  name : NameNode
  directives : Option (List DirectiveNode)
  values : List EnumValueDefinitionNode
  deriving DecidableEq, Repr

/-- Modelled from the spec: an interface type definition (spec section 3);
never produced by the parser under src/. -/
structure InterfaceTypeDefinitionNode where
  description : Option StringValueNode
  name : NameNode
  directives : Option (List DirectiveNode)
  fields : List FieldDefinitionNode
  deriving DecidableEq, Repr

/-- Modelled from the spec: a union type definition (spec section 3);
never produced by the parser under src/. -/
structure UnionTypeDefinitionNode where
  description : Option StringValueNode
  name : NameNode
  directives : Option (List DirectiveNode)
  types : List NamedTypeNode
  deriving DecidableEq, Repr

/-- Modelled from the spec: a scalar type definition (spec section 3);
never produced by the parser under src/. -/
structure ScalarTypeDefinitionNode where
  description : Option StringValueNode
  name : NameNode
  directives : Option (List DirectiveNode)
  deriving DecidableEq, Repr

/-- Modelled from the spec: an input type definition (spec section 3);
never produced by the parser under src/. -/
structure InputTypeDefinitionNode where
  description : Option StringValueNode
  name : NameNode
  fields : List InputValueDefinitionNode
  deriving DecidableEq, Repr

/-- Modelled from the spec: the type definition variants of spec section 3.
The parser under src/ constructs only Object and Enum. -/
inductive TypeDefinitionNode where
  | Object (node : ObjectTypeDefinitionNode)
  | Interface (node : InterfaceTypeDefinitionNode)
  | Union (node : UnionTypeDefinitionNode)
  | Enum (node : EnumTypeDefinitionNode)
  | Scalar (node : ScalarTypeDefinitionNode)
  | Input (node : InputTypeDefinitionNode)
  deriving DecidableEq, Repr

/-- Modelled from the spec: operation kinds (spec section 3). -/
inductive Operation where
  | Query
  | Mutation
  | Subscription
  deriving DecidableEq, Repr

/-- Modelled from the spec: one root operation binding of a schema definition
(spec section 3). -/
structure OperationTypeDefinitionNode where
  operation : Operation
  node_type : NamedTypeNode
  deriving DecidableEq, Repr

/-- Modelled from the spec: a schema definition (spec section 3);
never produced by the parser under src/. -/
structure SchemaDefinitionNode where
  description : Option StringValueNode
  directives : Option (List DirectiveNode)
  operations : List OperationTypeDefinitionNode
  deriving DecidableEq, Repr

/-- Modelled from the spec: type-system definitions, Schema or Type
(spec section 3).  The Type constructor of the source keeps its name. -/
inductive TypeSystemDefinitionNode where
  | Schema (node : SchemaDefinitionNode)
  | Type (node : TypeDefinitionNode)
  deriving DecidableEq, Repr

/-- Modelled from the spec: top-level definition variants (spec section 3).
The Extension and Executable variants are never produced by the parser under
src/, which is the authority here, so only TypeSystem is embedded. -/
inductive DefinitionNode where
  | TypeSystem (node : TypeSystemDefinitionNode)
  deriving DecidableEq, Repr

/-- Document root, the passive ordered list of definitions (spec section 3). -/
structure Document where
  definitions : List DefinitionNode
  deriving DecidableEq, Repr

/-- Document::new wraps the definition list (src/ast.rs line 35 calls it). -/
def Document.new (definitions : List DefinitionNode) : Document := ⟨definitions⟩

/-- Modelled from the spec: the fallible node constructors of nodes.rs (not
under src/) all take the raw name token; a token of any other category is
rejected, the validation pattern visible in src/ast.rs itself
(parse_object_type checks the token is a Name before building the node). -/
def Token.nameNode : Token → Except ParseError NameNode
  | .Name v => .ok ⟨v⟩
  | t => .error (.UnexpectedToken "Token::Name" t.toString)

/-- Modelled from the spec: StringValueNode::new decodes a Str or BlockStr
token into a description node (called at src/ast.rs lines 43 and 239). -/
def StringValueNode.new : Token → Except ParseError StringValueNode
  | .Str v => .ok ⟨v, false⟩
  | .BlockStr v => .ok ⟨v, true⟩
  | t => .error (.UnexpectedToken "Token::Str" t.toString)

/-- Modelled from the spec: NamedTypeNode::new wraps the name token of a named
type reference (called at src/ast.rs line 188). -/
def NamedTypeNode.new (tok : Token) : Except ParseError NamedTypeNode :=
  (tok.nameNode).map fun n => ⟨n⟩

/-- Modelled from the spec: InputValueDefinitionNode::new with the argument
order of the call at src/ast.rs line 54; directives are not parsed there and
stay none. -/
def InputValueDefinitionNode.new (name_tok : Token) (type_node : TypeNode)
    (description : Option StringValueNode) (default_value : Option ValueNode) :
    Except ParseError InputValueDefinitionNode :=
  (name_tok.nameNode).map fun n => ⟨description, n, type_node, default_value, none⟩

/-- Modelled from the spec: FieldDefinitionNode::new with the argument order
of the call at src/ast.rs line 176. -/
def FieldDefinitionNode.new (name_tok : Token) (field_type : TypeNode)
    (description : Option StringValueNode) (arguments : Option Arguments) :
    Except ParseError FieldDefinitionNode :=
  (name_tok.nameNode).map fun n => ⟨description, n, arguments, field_type⟩

/-- Modelled from the spec: ObjectTypeDefinitionNode::new with the argument
order of the call at src/ast.rs line 145; interfaces and directives are not
parsed by the source and stay none. -/
def ObjectTypeDefinitionNode.new (name_tok : Token)
    (description : Option StringValueNode) (fields : List FieldDefinitionNode) :
    Except ParseError ObjectTypeDefinitionNode :=
  (name_tok.nameNode).map fun n => ⟨description, n, none, none, fields⟩

/-- Modelled from the spec: EnumValueDefinitionNode::new with the argument
order of the call at src/ast.rs line 210; directives stay none. -/
def EnumValueDefinitionNode.new (name_tok : Token)
    (description : Option StringValueNode) :
    Except ParseError EnumValueDefinitionNode :=
  (name_tok.nameNode).map fun n => ⟨description, n, none⟩

/-- Modelled from the spec: EnumTypeDefinitionNode::new with the argument
order of the call at src/ast.rs line 155; directives stay none. -/
def EnumTypeDefinitionNode.new (name_tok : Token)
    (description : Option StringValueNode) (values : List EnumValueDefinitionNode) :
    Except ParseError EnumTypeDefinitionNode :=
  (name_tok.nameNode).map fun n => ⟨description, n, none, values⟩

/-! ## The peekable cursor helpers of src/ast.rs (lines 263 to 333)

The Rust parser owns a Peekable lexer; here each production maps a token
list to a result paired with the remaining tokens.  The lexer of the spec
yields End sentinels without bound once input is exhausted, so the EOF
branches below (empty list) sit past the single End sentinel the eager
tokenizer appends and are unreachable from any claim input. -/

/-- expect_optional_token (src/ast.rs line 290): peek, and consume only a
token of the same category as the probe. -/
def expect_optional_token (tok : Token) (ts : List Token) : Option Token × List Token :=
  match ts with
  | [] => (none, ts)
  | t :: rest => if t.is_same_type tok then (some t, rest) else (none, ts)

/-- expect_token (src/ast.rs line 270): consume the next token, requiring its
category to match the probe. -/
def expect_token (tok : Token) (ts : List Token) : Except ParseError (Token × List Token) :=
  match ts with
  | [] => .error .EOF
  | t :: rest =>
    if t.is_same_type tok then .ok (t, rest)
    else .error (.UnexpectedToken tok.toString t.toString)

/-- unwrap_peeked_token (src/ast.rs line 307): look at the next token without
consuming it. -/
def unwrap_peeked_token (ts : List Token) : Except ParseError Token :=
  match ts with
  | [] => .error .EOF
  | t :: _ => .ok t

/-- unwrap_next_token (src/ast.rs line 321): consume and return the next token. -/
def unwrap_next_token (ts : List Token) : Except ParseError (Token × List Token) :=
  match ts with
  | [] => .error .EOF
  | t :: rest => .ok (t, rest)

/-- parse_error (src/ast.rs line 263): build an UnexpectedToken error from an
expected description and the received token. -/
def parse_error (expected : String) (received : Token) : ParseError :=
  .UnexpectedToken expected received.toString

/-! ## The productions of src/ast.rs -/

/-- parse_value (src/ast.rs lines 215 to 261): the optional default value.
After an Equals the next token is peeked; Name payloads true, false and null
become boolean and null literals, any other name an enum value; Int, Float,
Str and BlockStr become their literal nodes; Dollar, OpenSquare and OpenBrace
are the unimplemented branches that return no value without consuming; any
other token also falls through to no value; without an Equals there is no
default value. -/
def parse_value (ts : List Token) : Except ParseError (Option ValueNode × List Token) :=
  match expect_optional_token Token.Equals ts with
  | (some _, ts1) =>
    match unwrap_peeked_token ts1 with
    | .error e => .error e
    | .ok tok =>
      match tok with
      | Token.Name value =>
        match unwrap_next_token ts1 with
        | .error e => .error e
        | .ok (_, ts2) =>
          if value = "true" then .ok (some (ValueNode.Bool ⟨true⟩), ts2)
          else if value = "false" then .ok (some (ValueNode.Bool ⟨false⟩), ts2)
          else if value = "null" then .ok (some ValueNode.Null, ts2)
          else .ok (some (ValueNode.Enum ⟨value⟩), ts2)
      | Token.Int value =>
        match unwrap_next_token ts1 with
        | .error e => .error e
        | .ok (_, ts2) => .ok (some (ValueNode.Int ⟨value⟩), ts2)
      | Token.Float value =>
        match unwrap_next_token ts1 with
        | .error e => .error e
        | .ok (_, ts2) => .ok (some (ValueNode.Float ⟨value⟩), ts2)
      | Token.Str _ =>
        match unwrap_next_token ts1 with
        | .error e => .error e
        | .ok (str_tok, ts2) =>
          match StringValueNode.new str_tok with
          | .error e => .error e
          | .ok s => .ok (some (ValueNode.Str s), ts2)
      | Token.BlockStr _ =>
        match unwrap_next_token ts1 with
        | .error e => .error e
        | .ok (str_tok, ts2) =>
          match StringValueNode.new str_tok with
          | .error e => .error e
          | .ok s => .ok (some (ValueNode.Str s), ts2)
      | Token.Dollar => .ok (none, ts1)
      | Token.OpenSquare => .ok (none, ts1)
      | Token.OpenBrace => .ok (none, ts1)
      | _ => .ok (none, ts1)
  | (none, ts1) => .ok (none, ts1)

/-- parse_field_type (src/ast.rs lines 179 to 199): an optional leading
OpenSquare builds a List around the recursively parsed inner type followed by
a CloseSquare, otherwise a Name builds a Named type; one optional trailing
Bang then wraps whatever was just built in NonNull.  The fuel only bounds the
bracket nesting; each recursion consumes the OpenSquare. -/
def parse_field_type : Nat → List Token → Except ParseError (TypeNode × List Token)
  | 0, _ => .error .EOF
  | fuel + 1, ts =>
    match expect_optional_token Token.OpenSquare ts with
    | (some _, ts1) =>
      match parse_field_type fuel ts1 with
      | .error e => .error e
      | .ok (inner, ts2) =>
        match expect_token Token.CloseSquare ts2 with
        | .error e => .error e
        | .ok (_, ts3) =>
          match expect_optional_token Token.Bang ts3 with
          | (some _, ts4) => .ok (TypeNode.NonNull (TypeNode.List inner), ts4)
          | (none, ts4) => .ok (TypeNode.List inner, ts4)
    | (none, _) =>
      match expect_token (Token.Name "") ts with
      | .error e => .error e
      | .ok (tok, ts2) =>
        match NamedTypeNode.new tok with
        | .error e => .error e
        | .ok n =>
          match expect_optional_token Token.Bang ts2 with
          | (some _, ts3) => .ok (TypeNode.NonNull (TypeNode.Named n), ts3)
          | (none, ts3) => .ok (TypeNode.Named n, ts3)

/-- parse_description (src/ast.rs lines 38 to 47): an optional leading Str or
BlockStr token becomes the description; anything else means none, without
consuming. -/
def parse_description (ts : List Token) :
    Except ParseError (Option StringValueNode × List Token) :=
  match unwrap_peeked_token ts with
  | .error e => .error e
  | .ok tok =>
    match tok with
    | Token.BlockStr _ =>
      match unwrap_next_token ts with
      | .error e => .error e
      | .ok (t, ts1) =>
        match StringValueNode.new t with
        | .error e => .error e
        | .ok s => .ok (some s, ts1)
    | Token.Str _ =>
      match unwrap_next_token ts with
      | .error e => .error e
      | .ok (t, ts1) =>
        match StringValueNode.new t with
        | .error e => .error e
        | .ok s => .ok (some s, ts1)
    | _ => .ok (none, ts)

/-- parse_argument (src/ast.rs lines 49 to 55): optional description, a raw
next token as the name, a field type, an optional default value.  Note the
source consumes no Colon between name and type. -/
def parse_argument (fuel : Nat) (ts : List Token) :
    Except ParseError (InputValueDefinitionNode × List Token) := do
  let (description, ts1) ← parse_description ts
  let (name_tok, ts2) ← unwrap_next_token ts1
  let (type_node, ts3) ← parse_field_type fuel ts2
  let (default_value, ts4) ← parse_value ts3
  let node ← InputValueDefinitionNode.new name_tok type_node description default_value
  pure (node, ts4)

/-- The loop of parse_arguments (src/ast.rs lines 64 to 70): push one parsed
argument, stop once an optional CloseParen is consumed.  On the break the
source returns Ok(None), so the accumulated args vector is dropped. -/
def parse_arguments_loop : Nat → Arguments → List Token →
    Except ParseError (Option Arguments × List Token)
  | 0, _, _ => .error .EOF
  | fuel + 1, args, ts => do
    let (arg, ts1) ← parse_argument fuel ts
    let args1 := args ++ [arg]
    match expect_optional_token Token.CloseParen ts1 with
    | (some _, ts2) =>
      let _ := args1
      pure (none, ts2)
    | (none, ts2) => parse_arguments_loop fuel args1 ts2

/-- parse_arguments (src/ast.rs lines 57 to 75): if an optional OpenParen is
consumed the source calls unwrap_next_token once more (line 60, an extra
consume: expect_optional_token has already eaten the OpenParen), then treats
an optional CloseParen as ArgumentEmpty, then loops over arguments; without an
OpenParen there are no arguments and no error. -/
def parse_arguments (fuel : Nat) (ts : List Token) :
    Except ParseError (Option Arguments × List Token) :=
  match expect_optional_token Token.OpenParen ts with
  | (some _, ts1) =>
    match unwrap_next_token ts1 with
    | .error e => .error e
    | .ok (_, ts2) =>
      match expect_optional_token Token.CloseParen ts2 with
      | (some _, _) => .error .ArgumentEmpty
      | (none, ts3) => parse_arguments_loop fuel [] ts3
  | (none, ts1) => .ok (none, ts1)

/-- parse_field (src/ast.rs lines 170 to 177): optional description, a Name,
optional arguments, a Colon, the field type. -/
def parse_field (fuel : Nat) (ts : List Token) :
    Except ParseError (FieldDefinitionNode × List Token) := do
  let (description, ts1) ← parse_description ts
  let (name, ts2) ← expect_token (Token.Name "") ts1
  let (arguments, ts3) ← parse_arguments fuel ts2
  let (_, ts4) ← expect_token Token.Colon ts3
  let (field_type, ts5) ← parse_field_type fuel ts4
  let node ← FieldDefinitionNode.new name field_type description arguments
  pure (node, ts5)

/-- The loop of parse_fields (src/ast.rs lines 161 to 166): stop once an
optional CloseBrace is consumed, otherwise parse one field and continue; an
immediately consumed CloseBrace leaves the field list empty. -/
def parse_fields_loop : Nat → List FieldDefinitionNode → List Token →
    Except ParseError (List FieldDefinitionNode × List Token)
  | 0, _, _ => .error .EOF
  | fuel + 1, fields, ts =>
    match expect_optional_token Token.CloseBrace ts with
    | (some _, ts1) => .ok (fields, ts1)
    | (none, ts1) => do
      let (f, ts2) ← parse_field fuel ts1
      parse_fields_loop fuel (fields ++ [f]) ts2

/-- parse_fields (src/ast.rs lines 158 to 168): an OpenBrace, then the field
loop. -/
def parse_fields (fuel : Nat) (ts : List Token) :
    Except ParseError (List FieldDefinitionNode × List Token) := do
  let (_, ts1) ← expect_token Token.OpenBrace ts
  parse_fields_loop fuel [] ts1

/-- The loop of parse_enum_values (src/ast.rs lines 204 to 211): stop once an
optional CloseBrace is consumed, otherwise an optional description, a Name,
and one enum value. -/
def parse_enum_values_loop : Nat → List EnumValueDefinitionNode → List Token →
    Except ParseError (List EnumValueDefinitionNode × List Token)
  | 0, _, _ => .error .EOF
  | fuel + 1, values, ts =>
    match expect_optional_token Token.CloseBrace ts with
    | (some _, ts1) => .ok (values, ts1)
    | (none, ts1) => do
      let (description, ts2) ← parse_description ts1
      let (name, ts3) ← expect_token (Token.Name "") ts2
      let v ← EnumValueDefinitionNode.new name description
      parse_enum_values_loop fuel (values ++ [v]) ts3

/-- parse_enum_values (src/ast.rs lines 201 to 213): an OpenBrace, then the
value loop. -/
def parse_enum_values (fuel : Nat) (ts : List Token) :
    Except ParseError (List EnumValueDefinitionNode × List Token) := do
  let (_, ts1) ← expect_token Token.OpenBrace ts
  parse_enum_values_loop fuel [] ts1

/-- parse_object_type (src/ast.rs lines 139 to 150): a raw next token that
must be a Name, then the fields. -/
def parse_object_type (fuel : Nat) (description : Option StringValueNode)
    (ts : List Token) : Except ParseError (ObjectTypeDefinitionNode × List Token) :=
  match unwrap_next_token ts with
  | .error e => .error e
  | .ok (name_tok, ts1) =>
    match name_tok with
    | Token.Name _ => do
      let (fields, ts2) ← parse_fields fuel ts1
      let obj ← ObjectTypeDefinitionNode.new name_tok description fields
      pure (obj, ts2)
    | _ => .error (parse_error "Token::Name" name_tok)

/-- parse_enum_type (src/ast.rs lines 152 to 156): a Name token (the category
check of expect_token ignores the payload written in the source probe), then
the enum values. -/
def parse_enum_type (fuel : Nat) (description : Option StringValueNode)
    (ts : List Token) : Except ParseError (EnumTypeDefinitionNode × List Token) := do
  let (name_tok, ts1) ← expect_token (Token.Name "enum") ts
  let (values, ts2) ← parse_enum_values fuel ts1
  let node ← EnumTypeDefinitionNode.new name_tok description values
  pure (node, ts2)

/-- parse_type (src/ast.rs lines 115 to 137): consume the keyword Name and
dispatch on its payload; type builds an Object, enum builds an Enum, any other
name is BadValue, a non-Name is UnexpectedToken. -/
def parse_type (fuel : Nat) (description : Option StringValueNode)
    (ts : List Token) : Except ParseError (TypeDefinitionNode × List Token) :=
  match unwrap_next_token ts with
  | .error e => .error e
  | .ok (tok, ts1) =>
    match tok with
    | Token.Name val =>
      if val = "type" then
        match parse_object_type fuel description ts1 with
        | .error e => .error e
        | .ok (node, ts2) => .ok (TypeDefinitionNode.Object node, ts2)
      else if val = "enum" then
        match parse_enum_type fuel description ts1 with
        | .error e => .error e
        | .ok (node, ts2) => .ok (TypeDefinitionNode.Enum node, ts2)
      else .error .BadValue
    | _ => .error (.UnexpectedToken "Token::Name" tok.toString)

/-- parse_definition (src/ast.rs lines 94 to 113): optional description, then
peek a Name; payloads type and enum go to parse_type wrapped as a TypeSystem
Type definition, any other payload is BadValue, a non-Name is UnexpectedToken
with expected text Token<Name>. -/
def parse_definition (fuel : Nat) (ts : List Token) :
    Except ParseError (DefinitionNode × List Token) :=
  match parse_description ts with
  | .error e => .error e
  | .ok (description, ts1) =>
    match unwrap_peeked_token ts1 with
    | .error e => .error e
    | .ok tok =>
      match tok with
      | Token.Name val =>
        if val = "type" ∨ val = "enum" then
          match parse_type fuel description ts1 with
          | .error e => .error e
          | .ok (t, ts2) =>
            .ok (DefinitionNode.TypeSystem (TypeSystemDefinitionNode.Type t), ts2)
        else .error .BadValue
      | _ => .error (.UnexpectedToken "Token<Name>" tok.toString)

/-- The loop of parse_definitions (src/ast.rs lines 83 to 89): parse one
definition, stop once an optional End is consumed. -/
def parse_definitions_loop : Nat → List DefinitionNode → List Token →
    Except ParseError (List DefinitionNode × List Token)
  | 0, _, _ => .error .EOF
  | fuel + 1, nodes, ts => do
    let (d, ts1) ← parse_definition fuel ts
    let nodes1 := nodes ++ [d]
    match expect_optional_token Token.End ts1 with
    | (some _, ts2) => pure (nodes1, ts2)
    | (none, ts2) => parse_definitions_loop fuel nodes1 ts2

/-- parse_definitions (src/ast.rs lines 77 to 92): a Start token, then an
immediately consumed optional End is the DocumentEmpty error, otherwise the
definition loop runs until End. -/
def parse_definitions (fuel : Nat) (ts : List Token) :
    Except ParseError (List DefinitionNode × List Token) :=
  match expect_token Token.Start ts with
  | .error e => .error e
  | .ok (_, ts1) =>
    match expect_optional_token Token.End ts1 with
    | (some _, _) => .error .DocumentEmpty
    | (none, ts2) => parse_definitions_loop fuel [] ts2

/-! ## The lexer, modelled from the spec

lexer.rs is not under src/ (lib.rs only declares the module), so the lexer
is modelled from spec section 4.1.  It is modelled eagerly: the whole input
is tokenized before parsing and the first lexical error aborts tokenization,
whereas the lazy Rust lexer surfaces an error only when the parser pulls that
token; no claim input is lexed differently by the two.  Line terminators
are newline characters; carriage returns are treated as plain whitespace
outside strings. -/

/-- Modelled from the spec: insignificant characters, whitespace, line
terminators and commas, are skipped and never surfaced (spec section 4.1). -/
def isSkipChar (c : Char) : Bool :=
  c = ' ' || c = '\t' || c = '\n' || c = '\r' || c = ','

/-- Modelled from the spec: the first character of a Name (spec section 4.1). -/
def isNameStartChar (c : Char) : Bool := c = '_' || c.isAlpha

/-- Modelled from the spec: a continuation character of a Name (spec 4.1). -/
def isNameChar (c : Char) : Bool := c = '_' || c.isAlphanum

/-- Decimal value of a digit string (helper of the modelled lexer). -/
def digitsToNat (ds : List Char) : Nat :=
  ds.foldl (fun a c => a * 10 + (c.toNat - 48)) 0

/-- Hexadecimal value of one digit (helper of the modelled lexer). -/
def hexVal (c : Char) : Option Nat :=
  if c.isDigit then some (c.toNat - 48)
  else if 'a' ≤ c && c ≤ 'f' then some (c.toNat - 87)
  else if 'A' ≤ c && c ≤ 'F' then some (c.toNat - 55)
  else none

/-- Modelled from the spec: the single-character escapes of a string literal
(spec section 4.1). -/
def escChar (c : Char) : Option Char :=
  if c = '\"' then some '\"'
  else if c = '\\' then some '\\'
  else if c = '/' then some '/'
  else if c = 'b' then some (Char.ofNat 8)
  else if c = 'f' then some (Char.ofNat 12)
  else if c = 'n' then some '\n'
  else if c = 'r' then some '\r'
  else if c = 't' then some '\t'
  else none

/-- Modelled from the spec: the numeric literal grammar of spec section 4.1;
d is the first digit, already consumed, neg a consumed leading minus.  A
fractional part or exponent selects Float, otherwise Int; a leading zero with
more digits or a missing digit sequence is a MalformedNumber error. -/
def lexNumber (neg : Bool) (d : Char) (cs : List Char) :
    Except LexErrorKind (Token × List Char) :=
  let intDigits := d :: cs.takeWhile Char.isDigit
  let rest1 := cs.dropWhile Char.isDigit
  if d = '0' && intDigits.length > 1 then .error LexErrorKind.MalformedNumber
  else
    let fracStep : Except LexErrorKind (List Char × List Char) :=
      match rest1 with
      | '.' :: r2 =>
        let fd := r2.takeWhile Char.isDigit
        if fd.isEmpty then .error LexErrorKind.MalformedNumber
        else .ok (fd, r2.dropWhile Char.isDigit)
      | _ => .ok ([], rest1)
    match fracStep with
    | .error e => .error e
    | .ok (fracDigits, rest2) =>
      let expStep : Except LexErrorKind (Option Int × List Char) :=
        match rest2 with
        | e :: r3 =>
          if e = 'e' || e = 'E' then
            let afterSign : Bool × List Char :=
              match r3 with
              | '-' :: r4 => (true, r4)
              | '+' :: r4 => (false, r4)
              | _ => (false, r3)
            let ed := afterSign.2.takeWhile Char.isDigit
            if ed.isEmpty then .error LexErrorKind.MalformedNumber
            else
              let ev : Int := digitsToNat ed
              .ok (some (if afterSign.1 then -ev else ev),
                   afterSign.2.dropWhile Char.isDigit)
          else .ok (none, rest2)
        | [] => .ok (none, rest2)
      match expStep with
      | .error e => .error e
      | .ok (expo, rest3) =>
        if fracDigits.isEmpty && expo.isNone then
          let v : Int := digitsToNat intDigits
          .ok (Token.Int (if neg then -v else v), rest3)
        else
          let m : Int := digitsToNat (intDigits ++ fracDigits)
          let e10 : Int := (expo.getD 0) - fracDigits.length
          .ok (Token.Float ⟨if neg then -m else m, e10⟩, rest3)

/-- Modelled from the spec: scan the body of a single-line string after the
opening quote, decoding escapes; an unterminated string or line terminator
before the closing quote is a lex error (spec section 4.1). -/
def strScan : List Char → Except LexErrorKind (List Char × List Char)
  | [] => .error LexErrorKind.UnterminatedString
  | c :: rest =>
    if c = '\"' then .ok ([], rest)
    else if c = '\n' || c = '\r' then .error LexErrorKind.UnterminatedString
    else if c = '\\' then
      match rest with
      | [] => .error LexErrorKind.UnterminatedString
      | e :: rest2 =>
        if e = 'u' then
          match rest2 with
          | h1 :: h2 :: h3 :: h4 :: rest3 =>
            match hexVal h1, hexVal h2, hexVal h3, hexVal h4 with
            | some a, some b, some c2, some d =>
              match strScan rest3 with
              | .error er => .error er
              | .ok (out, rem) =>
                .ok (Char.ofNat (a * 4096 + b * 256 + c2 * 16 + d) :: out, rem)
            | _, _, _, _ => .error LexErrorKind.InvalidEscape
          | _ => .error LexErrorKind.InvalidEscape
        else
          match escChar e with
          | some ec =>
            match strScan rest2 with
            | .error er => .error er
            | .ok (out, rem) => .ok (ec :: out, rem)
          | none => .error LexErrorKind.InvalidEscape
    else
      match strScan rest with
      | .error er => .error er
      | .ok (out, rem) => .ok (c :: out, rem)

/-- Modelled from the spec: scan the raw body of a block string after the
opening triple quote; only the escaped triple quote is an escape
(spec section 4.1). -/
def blockScan : List Char → Except LexErrorKind (List Char × List Char)
  | '\\' :: '\"' :: '\"' :: '\"' :: rest =>
    match blockScan rest with
    | .error e => .error e
    | .ok (out, rem) => .ok ('\"' :: '\"' :: '\"' :: out, rem)
  | '\"' :: '\"' :: '\"' :: rest => .ok ([], rest)
  | c :: rest =>
    match blockScan rest with
    | .error e => .error e
    | .ok (out, rem) => .ok (c :: out, rem)
  | [] => .error LexErrorKind.UnterminatedBlockString

/-- Split on newline characters (helper of the block-string algorithm). -/
def splitLines (cs : List Char) : List (List Char) :=
  cs.foldr
    (fun c acc =>
      match acc with
      | [] => if c = '\n' then [[], []] else [[c]]
      | l :: ls => if c = '\n' then [] :: l :: ls else (c :: l) :: ls)
    [[]]

/-- A line holding only spaces and tabs (helper of the block-string algorithm). -/
def isBlankLine (l : List Char) : Bool := l.all fun c => c = ' ' || c = '\t'

/-- Leading whitespace count of a line (helper of the block-string algorithm). -/
def indentOf (l : List Char) : Nat :=
  (l.takeWhile fun c => c = ' ' || c = '\t').length

/-- Modelled from the spec: the block-string value algorithm of spec section
4.1; the common leading indentation over all non-first lines holding non-
whitespace is stripped, and fully blank leading and trailing lines are
removed. -/
def blockStringValue (cs : List Char) : List Char :=
  match splitLines cs with
  | [] => []
  | first :: restLines =>
    let contentful := restLines.filter fun l => !(isBlankLine l)
    let common : Nat :=
      match contentful.map indentOf with
      | [] => 0
      | i :: is => is.foldl Nat.min i
    let stripped := restLines.map fun l => l.drop common
    let lines1 := first :: stripped
    let lines2 := lines1.dropWhile isBlankLine
    let lines3 := (lines2.reverse.dropWhile isBlankLine).reverse
    List.intercalate ['\n'] lines3

/-- Modelled from the spec: the single-character punctuators (spec 4.1). -/
def punctTok (c : Char) : Option Token :=
  if c = '\x7b' then some Token.OpenBrace
  else if c = '\x7d' then some Token.CloseBrace
  else if c = '(' then some Token.OpenParen
  else if c = ')' then some Token.CloseParen
  else if c = '[' then some Token.OpenSquare
  else if c = ']' then some Token.CloseSquare
  else if c = ':' then some Token.Colon
  else if c = '=' then some Token.Equals
  else if c = '!' then some Token.Bang
  else if c = '$' then some Token.Dollar
  else if c = '@' then some Token.At
  else if c = '|' then some Token.Pipe
  else none

/-- Modelled from the spec: the lexer loop over the remaining characters
(spec section 4.1).  Every step consumes at least one character, so a fuel
exceeding the character count never reaches the exhaustion branch. -/
def lexChars : Nat → List Char → Except LexErrorKind (List Token)
  | 0, _ => .error LexErrorKind.UnexpectedCharacter
  | _, [] => .ok []
  | fuel + 1, c :: cs =>
    if isSkipChar c then lexChars fuel cs
    else if c = '#' then lexChars fuel (cs.dropWhile fun x => x ≠ '\n')
    else if isNameStartChar c then
      match lexChars fuel (cs.dropWhile isNameChar) with
      | .error e => .error e
      | .ok toks => .ok (Token.Name (String.mk (c :: cs.takeWhile isNameChar)) :: toks)
    else if c.isDigit then
      match lexNumber false c cs with
      | .error e => .error e
      | .ok (t, rest) =>
        match lexChars fuel rest with
        | .error e => .error e
        | .ok toks => .ok (t :: toks)
    else if c = '-' then
      match cs with
      | d :: cs2 =>
        if d.isDigit then
          match lexNumber true d cs2 with
          | .error e => .error e
          | .ok (t, rest) =>
            match lexChars fuel rest with
            | .error e => .error e
            | .ok toks => .ok (t :: toks)
        else .error LexErrorKind.UnexpectedCharacter
      | [] => .error LexErrorKind.UnexpectedCharacter
    else if c = '\"' then
      match cs with
      | '\"' :: '\"' :: cs2 =>
        match blockScan cs2 with
        | .error e => .error e
        | .ok (content, rest) =>
          match lexChars fuel rest with
          | .error e => .error e
          | .ok toks =>
            .ok (Token.BlockStr (String.mk (blockStringValue content)) :: toks)
      | _ =>
        match strScan cs with
        | .error e => .error e
        | .ok (content, rest) =>
          match lexChars fuel rest with
          | .error e => .error e
          | .ok toks => .ok (Token.Str (String.mk content) :: toks)
    else
      match punctTok c with
      | some t =>
        match lexChars fuel cs with
        | .error e => .error e
        | .ok toks => .ok (t :: toks)
      | none =>
        if c = '.' then
          match cs with
          | '.' :: '.' :: cs2 =>
            match lexChars fuel cs2 with
            | .error e => .error e
            | .ok toks => .ok (Token.Ellipsis :: toks)
          | _ => .error LexErrorKind.UnexpectedCharacter
        else .error LexErrorKind.UnexpectedCharacter

/-- Modelled from the spec: the token stream of an input, one synthetic Start
before the first real token and one End once input is exhausted
(spec sections 2 and 4.1). -/
def tokenize (input : String) : Except LexErrorKind (List Token) :=
  let cs := input.data
  match lexChars (cs.length + 1) cs with
  | .error e => .error e
  | .ok toks => .ok (Token.Start :: toks ++ [Token.End])

/-- The public boundary parse of src/syntax/src/lib.rs lines 32 to 36:
AST::new never fails, ast.parse runs parse_definitions and wraps the
definitions into a Document. -/
def parse (input : String) : Except ParseError Document :=
  match tokenize input with
  | .error e => .error (ParseError.LexError e)
  | .ok toks =>
    match parse_definitions (toks.length + 1) toks with
    | .error e => .error e
    | .ok (definitions, _) => .ok (Document.new definitions)

/-! ## Statement helpers -/

set_option maxRecDepth 40000

/-- Recognizer for an UnexpectedToken parse result; used to state failures
without fixing the modelled rendering of the received token. -/
def isUnexpectedTokenErr : Except ParseError Document → Bool
  | .error (.UnexpectedToken _ _) => true
  | _ => false

/-- Recognizer for the ArgumentEmpty parse result. -/
def isArgumentEmptyErr : Except ParseError Document → Bool
  | .error .ArgumentEmpty => true
  | _ => false

/-- Head-category test: whether the next token of a stream has the category of
the probe; used to state that the token after a type expression does not
extend it. -/
def headSame (tok : Token) : List Token → Bool
  | [] => false
  | t :: _ => t.is_same_type tok

/-- Token categories the default-value production consumes after an Equals:
exactly the Name, Int, Float, Str and BlockStr arms of parse_value
(src/ast.rs lines 220 to 240); every other category falls through without
being consumed. -/
def valueStartConsumed : Token → Bool
  | .Name _ => true
  | .Int _ => true
  | .Float _ => true
  | .Str _ => true
  | .BlockStr _ => true
  | _ => false

/-! ## The claims -/

/-- Claim C1: a field declared with N argument definitions should yield a
field node with exactly those N arguments, the accumulated list being
returned to the caller.  The source violates this: parse_arguments returns
Ok(None) after its loop, dropping the accumulated vector (src/ast.rs line
71).  First conjunct, at token level: on an OpenParen stream the production
runs its loop, parses a full argument definition, consumes the CloseParen and
still reports no arguments.  Second conjunct: the parse of the argument input
of the crate's own test parses_object (src/lib.rs) fails with UnexpectedToken
instead of producing the two declared arguments, because parse_arguments also
consumes one extra token after the OpenParen and parse_argument never consumes
the Colon. -/
theorem claim_c1_argument_list_discarded :
    parse_arguments 9 [Token.OpenParen, Token.Name "x", Token.Name "y",
      Token.Name "Int", Token.CloseParen, Token.Colon] = .ok (none, [Token.Colon])
  ∧ isUnexpectedTokenErr
      (parse "type Obj \x7b arg(arg1: Int = 42, arg2: Bool!): Bool \x7d") = true :=
  ⟨rfl, rfl⟩

/-- Claim C2: the input type Obj with field arg(a: Int = 1): Bool should parse
into one object whose field arg carries one argument a of type Named Int with
default Int 1.  The source instead fails the whole parse: after the OpenParen
is consumed twice, the Colon lands in name position of the argument and the
node constructor rejects it. -/
theorem claim_c2_argument_default_input :
    isUnexpectedTokenErr (parse "type Obj \x7b arg(a: Int = 1): Bool \x7d") = true :=
  rfl

/-- Claim C3: the input union Pic = Gif | Jpeg should parse into one Union
type definition.  The definition dispatch of the source recognizes only the
keywords type and enum (src/ast.rs lines 98 to 104) and answers BadValue for
union, contradicting the crate's own test parses_union (src/lib.rs). -/
theorem claim_c3_union_dispatch :
    parse "union Pic = Gif | Jpeg" = .error ParseError.BadValue :=
  rfl

/-- Claim C4: the input consisting of a bare selection set over user and name
should parse into one anonymous Query operation.  The source requires every
definition to start with a Name token (src/ast.rs lines 106 to 112), so the
leading OpenBrace is an UnexpectedToken error, contradicting the crate's own
test parses_anonymous_query (src/lib.rs). -/
theorem claim_c4_anonymous_query :
    isUnexpectedTokenErr (parse "\x7b user \x7b name \x7d \x7d") = true :=
  rfl

/-- Claim C5: empty parentheses after a field name should fail with
ArgumentEmpty, while omitted parentheses should yield a field with no
arguments and no error.  The second half holds (third conjunct), but the
first does not: the ArgumentEmpty check of the source looks one token past
the CloseParen because expect_optional_token already consumed the OpenParen
that the following unwrap_next_token was meant to consume (src/ast.rs lines
58 to 63), so the parse of arg() fails with UnexpectedToken and never with
ArgumentEmpty (first two conjuncts). -/
theorem claim_c5_empty_argument_list :
    isArgumentEmptyErr (parse "type Obj \x7b arg(): Bool \x7d") = false
  ∧ isUnexpectedTokenErr (parse "type Obj \x7b arg(): Bool \x7d") = true
  ∧ parse "type Obj \x7b arg: Bool \x7d" = .ok (Document.new
      [DefinitionNode.TypeSystem (TypeSystemDefinitionNode.Type
        (TypeDefinitionNode.Object ⟨none, ⟨"Obj"⟩, none, none,
          [⟨none, ⟨"arg"⟩, none, TypeNode.Named ⟨⟨"Bool"⟩⟩⟩]⟩))]) :=
  ⟨rfl, rfl, rfl⟩

/-- Claim C6: for every type name T, in field-type position the bracket and
bang combinations compose as list of T, non-null list of T, list of non-null
T, and non-null list of non-null T; the trailing bang wraps exactly the
expression built at its own nesting level.  The hypothesis says the token
following the whole type expression is not itself a Bang, which delimits the
expression in the first and third shapes. -/
theorem claim_c6_bang_binding (fuel : Nat) (T : String) (rest : List Token)
    (h : headSame Token.Bang rest = false) :
    (parse_field_type (fuel + 2)
        (Token.OpenSquare :: Token.Name T :: Token.CloseSquare :: rest)
      = .ok (TypeNode.List (TypeNode.Named ⟨⟨T⟩⟩), rest))
  ∧ (parse_field_type (fuel + 2)
        (Token.OpenSquare :: Token.Name T :: Token.CloseSquare :: Token.Bang :: rest)
      = .ok (TypeNode.NonNull (TypeNode.List (TypeNode.Named ⟨⟨T⟩⟩)), rest))
  ∧ (parse_field_type (fuel + 2)
        (Token.OpenSquare :: Token.Name T :: Token.Bang :: Token.CloseSquare :: rest)
      = .ok (TypeNode.List (TypeNode.NonNull (TypeNode.Named ⟨⟨T⟩⟩)), rest))
  ∧ (parse_field_type (fuel + 2)
        (Token.OpenSquare :: Token.Name T :: Token.Bang :: Token.CloseSquare ::
          Token.Bang :: rest)
      = .ok (TypeNode.NonNull (TypeNode.List (TypeNode.NonNull
          (TypeNode.Named ⟨⟨T⟩⟩))), rest)) := by
  refine ⟨?_, ?_, ?_, ?_⟩
  · cases rest with
    | nil =>
      simp [parse_field_type, expect_optional_token, expect_token, Token.is_same_type,
        Token.tag, NamedTypeNode.new, Token.nameNode, Except.map]
    | cons t r =>
      simp only [headSame, Token.is_same_type, Token.tag] at h
      simp [parse_field_type, expect_optional_token, expect_token, Token.is_same_type,
        Token.tag, NamedTypeNode.new, Token.nameNode, Except.map, h]
  · simp [parse_field_type, expect_optional_token, expect_token, Token.is_same_type,
      Token.tag, NamedTypeNode.new, Token.nameNode, Except.map]
  · cases rest with
    | nil =>
      simp [parse_field_type, expect_optional_token, expect_token, Token.is_same_type,
        Token.tag, NamedTypeNode.new, Token.nameNode, Except.map]
    | cons t r =>
      simp only [headSame, Token.is_same_type, Token.tag] at h
      simp [parse_field_type, expect_optional_token, expect_token, Token.is_same_type,
        Token.tag, NamedTypeNode.new, Token.nameNode, Except.map, h]
  · simp [parse_field_type, expect_optional_token, expect_token, Token.is_same_type,
      Token.tag, NamedTypeNode.new, Token.nameNode, Except.map]

/-- Claim C6 witness: the list shape at the concrete name Int with nothing
following. -/
theorem claim_c6_bang_binding_witness :
    headSame Token.Bang ([] : List Token) = false
  ∧ parse_field_type 2 [Token.OpenSquare, Token.Name "Int", Token.CloseSquare]
      = .ok (TypeNode.List (TypeNode.Named ⟨⟨"Int"⟩⟩), []) :=
  ⟨by decide, (claim_c6_bang_binding 0 "Int" [] (by decide)).1⟩

/-- Claim C7: an input whose token stream is the synthetic Start immediately
followed by End, which is what the lexer produces on empty or
whitespace-comma-comment-only input, parses to the DocumentEmpty error rather
than an empty document. -/
theorem claim_c7_document_empty (s : String)
    (h : tokenize s = .ok [Token.Start, Token.End]) :
    parse s = .error ParseError.DocumentEmpty := by
  simp [parse, h, parse_definitions, expect_token, expect_optional_token,
    Token.is_same_type, Token.tag]

/-- Claim C7 witness: a concrete input of whitespace, commas and a comment. -/
theorem claim_c7_document_empty_witness :
    tokenize " ,,# note" = .ok [Token.Start, Token.End]
  ∧ parse " ,,# note" = .error ParseError.DocumentEmpty :=
  ⟨rfl, claim_c7_document_empty " ,,# note" rfl⟩

/-- Claim C8: after an Equals the default-value production maps the Name
payloads true, false and null to boolean and null literals, any other name to
an enum-value literal, Int, Float, Str and BlockStr tokens to their literal
nodes, yields no default value and no error on Dollar, OpenSquare and
OpenBrace, and yields no default value and no error when the Equals itself is
absent. -/
theorem claim_c8_default_value_dispatch (v : String) (n : I64) (x : F64)
    (s : String) (t : Token) (rest : List Token)
    (hv1 : v ≠ "true") (hv2 : v ≠ "false") (hv3 : v ≠ "null")
    (ht : t.is_same_type Token.Equals = false) :
    (parse_value (Token.Equals :: Token.Name "true" :: rest)
      = .ok (some (ValueNode.Bool ⟨true⟩), rest))
  ∧ (parse_value (Token.Equals :: Token.Name "false" :: rest)
      = .ok (some (ValueNode.Bool ⟨false⟩), rest))
  ∧ (parse_value (Token.Equals :: Token.Name "null" :: rest)
      = .ok (some ValueNode.Null, rest))
  ∧ (parse_value (Token.Equals :: Token.Name v :: rest)
      = .ok (some (ValueNode.Enum ⟨v⟩), rest))
  ∧ (parse_value (Token.Equals :: Token.Int n :: rest)
      = .ok (some (ValueNode.Int ⟨n⟩), rest))
  ∧ (parse_value (Token.Equals :: Token.Float x :: rest)
      = .ok (some (ValueNode.Float ⟨x⟩), rest))
  ∧ (parse_value (Token.Equals :: Token.Str s :: rest)
      = .ok (some (ValueNode.Str ⟨s, false⟩), rest))
  ∧ (parse_value (Token.Equals :: Token.BlockStr s :: rest)
      = .ok (some (ValueNode.Str ⟨s, true⟩), rest))
  ∧ (parse_value (Token.Equals :: Token.Dollar :: rest)
      = .ok (none, Token.Dollar :: rest))
  ∧ (parse_value (Token.Equals :: Token.OpenSquare :: rest)
      = .ok (none, Token.OpenSquare :: rest))
  ∧ (parse_value (Token.Equals :: Token.OpenBrace :: rest)
      = .ok (none, Token.OpenBrace :: rest))
  ∧ (parse_value (t :: rest) = .ok (none, t :: rest)) := by
  refine ⟨?_, ?_, ?_, ?_, ?_, ?_, ?_, ?_, ?_, ?_, ?_, ?_⟩
  all_goals first
    | (simp [parse_value, expect_optional_token, Token.is_same_type, Token.tag,
        unwrap_peeked_token, unwrap_next_token, StringValueNode.new, hv1, hv2, hv3]
       done)
    | (simp [parse_value, expect_optional_token, ht])

/-- Claim C8 witness: the enum-value arm at the concrete name RED and the
missing-Equals arm at a concrete Colon. -/
theorem claim_c8_default_value_dispatch_witness :
    ("RED" : String) ≠ "true" ∧ ("RED" : String) ≠ "false"
  ∧ ("RED" : String) ≠ "null"
  ∧ Token.Colon.is_same_type Token.Equals = false
  ∧ parse_value [Token.Equals, Token.Name "RED"]
      = .ok (some (ValueNode.Enum ⟨"RED"⟩), [])
  ∧ parse_value [Token.Colon] = .ok (none, [Token.Colon]) :=
  ⟨by decide, by decide, by decide, by decide,
   (claim_c8_default_value_dispatch "RED" 1 ⟨15, -1⟩ "hi" Token.Colon []
      (by decide) (by decide) (by decide) (by decide)).2.2.2.1,
   (claim_c8_default_value_dispatch "RED" 1 ⟨15, -1⟩ "hi" Token.Colon []
      (by decide) (by decide) (by decide) (by decide)).2.2.2.2.2.2.2.2.2.2.2⟩

/-- Claim C9: the exact input type Obj with an immediately closed brace pair
parses to one Object type definition named Obj with an empty field list. -/
theorem claim_c9_empty_object :
    parse "type Obj \x7b\x7d" = .ok (Document.new
      [DefinitionNode.TypeSystem (TypeSystemDefinitionNode.Type
        (TypeDefinitionNode.Object ⟨none, ⟨"Obj"⟩, none, none, []⟩))]) :=
  rfl

/-- Claim C10: whenever the token after a consumed Equals is one the
default-value production does not handle, Dollar, OpenSquare, OpenBrace or
any other unconsumed category, the production returns no default value and
leaves that token as the next token of the stream; only the Equals has been
consumed. -/
theorem claim_c10_value_frame (t : Token) (rest : List Token)
    (h : valueStartConsumed t = false) :
    parse_value (Token.Equals :: t :: rest) = .ok (none, t :: rest) := by
  cases t <;> simp_all [parse_value, expect_optional_token, Token.is_same_type,
    Token.tag, unwrap_peeked_token, valueStartConsumed]

/-- Claim C10 witness: the Dollar arm at an empty remainder. -/
theorem claim_c10_value_frame_witness :
    valueStartConsumed Token.Dollar = false
  ∧ parse_value [Token.Equals, Token.Dollar] = .ok (none, [Token.Dollar]) :=
  ⟨by decide, claim_c10_value_frame Token.Dollar [] (by decide)⟩

end Gql
